import Mathlib

/-!
Verification development for the AI SaaS repository (Next.js application).

The embedding below is a shallow translation of the request handlers and the
Evolink provider adapter into pure Lean functions:

- JavaScript string semantics (toLowerCase, truthiness, parseInt) are modeled
  by explicit functions over char lists so that all definitions kernel-evaluate.
- Asynchronous external calls (database lookups, saveFiles, fetch, object
  storage) are modeled by explicit state passing and oracle function
  parameters: the database is a list of rows, an HTTP call is a function from
  the request to a response value, and saveFiles is a function from the list
  of files to the optional list of uploaded files.
- JSON serialization of structured values (JSON.stringify of the built task
  info) is modeled by storing the structured value itself in the row field.
-/

/- ===== JavaScript string semantics helpers ===== -/

/-- Model of the JavaScript toLowerCase call on a string (character map). -/
def jsToLower (s : String) : String := String.mk (s.data.map Char.toLower)

/-- Model of JavaScript falsiness of an optional string value: a string
expression is falsy exactly when it is absent (undefined or null) or empty. -/
def jsFalsyStr (s : Option String) : Prop := s = none ∨ s = some ""

instance (s : Option String) : Decidable (jsFalsyStr s) := by
  unfold jsFalsyStr; infer_instance

/-- Model of the JavaScript expression (s or default) on strings: the default
replaces an absent or empty string. -/
def jsOrStr (s : Option String) (d : String) : String :=
  match s with
  | some v => if v = "" then d else v
  | none => d

/-- Accumulate leading decimal digits, as JavaScript parseInt does after the
sign; the accumulator stays none until the first digit is seen. -/
def jsParseIntDigits : List Char → Option Nat → Option Nat
  | [], acc => acc
  | c :: rest, acc =>
    if c.isDigit then
      jsParseIntDigits rest (some ((acc.getD 0) * 10 + (c.toNat - 48)))
    else acc

/-- Model of JavaScript parseInt in base 10: skip leading whitespace, read an
optional sign and then the maximal run of leading digits; none models NaN. -/
def jsParseInt (s : String) : Option Int :=
  let chars := s.data.dropWhile (fun c => c = ' ' || c = '\t' || c = '\n' || c = '\r')
  match chars with
  | '-' :: rest => (jsParseIntDigits rest none).map (fun n => -(n : Int))
  | '+' :: rest => (jsParseIntDigits rest none).map (fun n => (n : Int))
  | _ => (jsParseIntDigits chars none).map (fun n => (n : Int))

/-- Model of the JavaScript endsWith call on strings. -/
def jsEndsWith (s ending : String) : Bool := ending.data.isSuffixOf s.data

/- ===== AI task status enum and the two Evolink status mappers ===== -/

/-- The internal AI task status enum (extensions/ai types). -/
inductive AITaskStatus where
  | PENDING
  | PROCESSING
  | SUCCESS
  | FAILED
  | CANCELED
deriving DecidableEq, Repr

/-- The status mapping switch of the Evolink webhook handler
(app/api/ai/notify/evolink/route.ts, POST, lines 49 to 69). The optional
chaining on the vendor status is modeled by the Option argument; the switch
compares the lowercased status against the vendor status strings and defaults
to PROCESSING. -/
def mapEvolinkStatusOpt (status : Option String) : AITaskStatus :=
  if status.map jsToLower = some "pending" then AITaskStatus.PENDING
  else if status.map jsToLower = some "processing" then AITaskStatus.PROCESSING
  else if status.map jsToLower = some "completed" then AITaskStatus.SUCCESS
  else if status.map jsToLower = some "failed" then AITaskStatus.FAILED
  else if status.map jsToLower = some "cancelled" then AITaskStatus.CANCELED
  else if status.map jsToLower = some "canceled" then AITaskStatus.CANCELED
  else AITaskStatus.PROCESSING

namespace EvolinkProvider

/-- The mapStatus method of the EvolinkProvider adapter (the switch has the
same cases as the webhook handler switch; the optional chaining on the status
argument is modeled by the Option argument). -/
def mapStatus (status : Option String) : AITaskStatus :=
  if status.map jsToLower = some "pending" then AITaskStatus.PENDING
  else if status.map jsToLower = some "processing" then AITaskStatus.PROCESSING
  else if status.map jsToLower = some "completed" then AITaskStatus.SUCCESS
  else if status.map jsToLower = some "failed" then AITaskStatus.FAILED
  else if status.map jsToLower = some "cancelled" then AITaskStatus.CANCELED
  else if status.map jsToLower = some "canceled" then AITaskStatus.CANCELED
  else AITaskStatus.PROCESSING

end EvolinkProvider

/- ===== Theorems for claims C1 and C9 ===== -/

/-- C1: both the webhook handler switch and EvolinkProvider.mapStatus
normalize vendor status strings case-insensitively: every string equal to
pending, processing, completed, failed, cancelled or canceled up to case is
mapped to PENDING, PROCESSING, SUCCESS, FAILED, CANCELED and CANCELED
respectively, in both mappers. -/
theorem evolink_status_mapping_case_insensitive (s : String) :
    (jsToLower s = "pending" →
      mapEvolinkStatusOpt (some s) = AITaskStatus.PENDING ∧
      EvolinkProvider.mapStatus (some s) = AITaskStatus.PENDING)
  ∧ (jsToLower s = "processing" →
      mapEvolinkStatusOpt (some s) = AITaskStatus.PROCESSING ∧
      EvolinkProvider.mapStatus (some s) = AITaskStatus.PROCESSING)
  ∧ (jsToLower s = "completed" →
      mapEvolinkStatusOpt (some s) = AITaskStatus.SUCCESS ∧
      EvolinkProvider.mapStatus (some s) = AITaskStatus.SUCCESS)
  ∧ (jsToLower s = "failed" →
      mapEvolinkStatusOpt (some s) = AITaskStatus.FAILED ∧
      EvolinkProvider.mapStatus (some s) = AITaskStatus.FAILED)
  ∧ ((jsToLower s = "cancelled" ∨ jsToLower s = "canceled") →
      mapEvolinkStatusOpt (some s) = AITaskStatus.CANCELED ∧
      EvolinkProvider.mapStatus (some s) = AITaskStatus.CANCELED) := by
  refine ⟨?_, ?_, ?_, ?_, ?_⟩
  · intro h
    constructor <;> simp [mapEvolinkStatusOpt, EvolinkProvider.mapStatus, h]
  · intro h
    constructor <;> simp [mapEvolinkStatusOpt, EvolinkProvider.mapStatus, h]
  · intro h
    constructor <;> simp [mapEvolinkStatusOpt, EvolinkProvider.mapStatus, h]
  · intro h
    constructor <;> simp [mapEvolinkStatusOpt, EvolinkProvider.mapStatus, h]
  · intro h
    rcases h with h | h <;>
      constructor <;> simp [mapEvolinkStatusOpt, EvolinkProvider.mapStatus, h]

/-- Witness for C1: the mapping theorem applied at one concrete input per
vendor status, each hypothesis discharged by evaluation. -/
theorem evolink_status_mapping_case_insensitive_witness :
    mapEvolinkStatusOpt (some "Pending") = AITaskStatus.PENDING
  ∧ EvolinkProvider.mapStatus (some "PROCESSING") = AITaskStatus.PROCESSING
  ∧ mapEvolinkStatusOpt (some "Completed") = AITaskStatus.SUCCESS
  ∧ EvolinkProvider.mapStatus (some "Failed") = AITaskStatus.FAILED
  ∧ mapEvolinkStatusOpt (some "Cancelled") = AITaskStatus.CANCELED
  ∧ EvolinkProvider.mapStatus (some "CANCELED") = AITaskStatus.CANCELED :=
  ⟨((evolink_status_mapping_case_insensitive "Pending").1 (by decide)).1,
   ((evolink_status_mapping_case_insensitive "PROCESSING").2.1 (by decide)).2,
   ((evolink_status_mapping_case_insensitive "Completed").2.2.1 (by decide)).1,
   ((evolink_status_mapping_case_insensitive "Failed").2.2.2.1 (by decide)).2,
   ((evolink_status_mapping_case_insensitive "Cancelled").2.2.2.2 (Or.inl (by decide))).1,
   ((evolink_status_mapping_case_insensitive "CANCELED").2.2.2.2 (Or.inr (by decide))).2⟩

/-- C9: every vendor status not equal (up to case) to one of the six
recognized strings, including an absent status, is mapped to PROCESSING by
both the webhook handler switch and EvolinkProvider.mapStatus; in particular
an unrecognized status never yields SUCCESS, FAILED or CANCELED. -/
theorem evolink_unrecognized_status_maps_to_processing (status : Option String)
    (h : status.map jsToLower ∉
      ([some "pending", some "processing", some "completed", some "failed",
        some "cancelled", some "canceled"] : List (Option String))) :
    mapEvolinkStatusOpt status = AITaskStatus.PROCESSING
  ∧ EvolinkProvider.mapStatus status = AITaskStatus.PROCESSING
  ∧ mapEvolinkStatusOpt status ∉
      [AITaskStatus.SUCCESS, AITaskStatus.FAILED, AITaskStatus.CANCELED]
  ∧ EvolinkProvider.mapStatus status ∉
      [AITaskStatus.SUCCESS, AITaskStatus.FAILED, AITaskStatus.CANCELED] := by
  simp only [List.mem_cons, List.mem_singleton, not_or] at h
  obtain ⟨h1, h2, h3, h4, h5, h6⟩ := h
  have e1 : mapEvolinkStatusOpt status = AITaskStatus.PROCESSING := by
    simp [mapEvolinkStatusOpt, h1, h2, h3, h4, h5, h6]
  have e2 : EvolinkProvider.mapStatus status = AITaskStatus.PROCESSING := by
    simp [EvolinkProvider.mapStatus, h1, h2, h3, h4, h5, h6]
  refine ⟨e1, e2, ?_, ?_⟩ <;> simp [e1, e2]

/-- Witness for C9: an unrecognized concrete status and the absent status are
both mapped to PROCESSING. -/
theorem evolink_unrecognized_status_maps_to_processing_witness :
    mapEvolinkStatusOpt (some "queued") = AITaskStatus.PROCESSING
  ∧ EvolinkProvider.mapStatus none = AITaskStatus.PROCESSING :=
  ⟨(evolink_unrecognized_status_maps_to_processing (some "queued") (by decide)).1,
   (evolink_unrecognized_status_maps_to_processing none (by decide)).2.1⟩

/- ===== Data model: AI task rows and the Evolink webhook payload ===== -/

/-- One video output entry as built by the Evolink handlers (id, create time
and video URL; the Date value is modeled by a Nat timestamp). -/
structure AIVideo where
  id : String
  createTime : Nat
  videoUrl : String
deriving DecidableEq, Repr

/-- One image output entry as built by the Evolink handlers. -/
structure AIImage where
  id : String
  createTime : Nat
  imageUrl : String
deriving DecidableEq, Repr

/-- One file passed to saveFiles (extensions/ai AIFile shape as constructed by
the Evolink webhook handler and by EvolinkProvider.query). -/
structure AIFile where
  url : String
  contentType : String
  key : String
  index : Option Nat
  type : String
deriving DecidableEq, Repr

/-- The error object of an Evolink payload. -/
structure EvolinkError where
  code : String
  message : String
deriving DecidableEq, Repr

/-- An Evolink task payload: the webhook body and the task query response
share this format (id, status, results array, media type, error object). -/
structure EvolinkTaskPayload where
  id : Option String
  status : Option String
  results : Option (List String)
  type : Option String
  error : Option EvolinkError
deriving DecidableEq, Repr

/-- The task info JSON object built by the Evolink webhook handler (status,
error fields, and the optional videos or images arrays added on success). -/
structure TaskInfo where
  status : Option String
  errorCode : String
  errorMessage : String
  videos : Option (List AIVideo)
  images : Option (List AIImage)
deriving DecidableEq, Repr

/-- One persisted AITask row (spec data model: id, providerTaskId, provider,
status, taskInfo JSON, taskResult JSON, creditId); the stringified task info
is stored as its structured value. -/
structure AITask where
  id : String
  providerTaskId : String
  provider : String
  status : AITaskStatus
  taskInfo : TaskInfo
  taskResult : String
  creditId : String
deriving DecidableEq, Repr

/-- The UpdateAITask shape written by the webhook handler. -/
structure UpdateAITask where
  status : AITaskStatus
  taskInfo : TaskInfo
  taskResult : String
  creditId : String
deriving DecidableEq, Repr

/-- Applying an UpdateAITask to a row writes exactly the four update fields
and keeps every other column. -/
def applyUpdateAITask (t : AITask) (u : UpdateAITask) : AITask :=
  { t with status := u.status, taskInfo := u.taskInfo,
           taskResult := u.taskResult, creditId := u.creditId }

/-- Lookup of a task row by provider task id and provider name
(shared/models/ai_task findAITaskByProviderTaskId, db as a list of rows). -/
def findAITaskByProviderTaskId (db : List AITask) (taskId provider : String) :
    Option AITask :=
  db.find? (fun t => t.providerTaskId == taskId && t.provider == provider)

/-- Row update by primary key (shared/models/ai_task updateAITaskById, db as
a list of rows). -/
def updateAITaskById (db : List AITask) (id : String) (u : UpdateAITask) :
    List AITask :=
  db.map (fun t => if t.id = id then applyUpdateAITask t u else t)

/-- The configs read by the webhook handler (getAllConfigs result restricted
to the key the handler reads). -/
structure Configs where
  evolink_custom_storage : Option String
deriving DecidableEq, Repr

/- ===== The saveFiles URL replacement loops ===== -/

/-- Indexed assignment on the videos array: videos at position i gets the new
video URL, positions out of range are left untouched. -/
def setVideoUrlAt : List AIVideo → Nat → String → List AIVideo
  | [], _, _ => []
  | v :: rest, 0, url => { v with videoUrl := url } :: rest
  | v :: rest, Nat.succ n, url => v :: setVideoUrlAt rest n url

/-- Indexed assignment on the images array. -/
def setImageUrlAt : List AIImage → Nat → String → List AIImage
  | [], _, _ => []
  | v :: rest, 0, url => { v with imageUrl := url } :: rest
  | v :: rest, Nat.succ n, url => v :: setImageUrlAt rest n url

/-- One iteration of the forEach over uploadedFiles in the webhook handler:
a present file with a nonempty URL and a defined index overwrites the video
URL at that index (the element existence check corresponds to the in-range
condition). -/
def applyUploadedVideoFile (vs : List AIVideo) (f : Option AIFile) :
    List AIVideo :=
  match f with
  | none => vs
  | some file =>
    if file.url ≠ "" then
      match file.index with
      | some i => setVideoUrlAt vs i file.url
      | none => vs
    else vs

/-- One iteration of the forEach over uploadedFiles for images. -/
def applyUploadedImageFile (vs : List AIImage) (f : Option AIFile) :
    List AIImage :=
  match f with
  | none => vs
  | some file =>
    if file.url ≠ "" then
      match file.index with
      | some i => setImageUrlAt vs i file.url
      | none => vs
    else vs

/-- The full forEach over uploadedFiles replacing video URLs in order. -/
def applyUploadedVideos (vs : List AIVideo) (up : List (Option AIFile)) :
    List AIVideo :=
  up.foldl applyUploadedVideoFile vs

/-- The full forEach over uploadedFiles replacing image URLs in order. -/
def applyUploadedImages (vs : List AIImage) (up : List (Option AIFile)) :
    List AIImage :=
  up.foldl applyUploadedImageFile vs

/-- The storage URL contributed to index j by one uploaded file entry: only a
present file with nonempty URL and index j counts as saved successfully at j. -/
def savedUrlHit (f : Option AIFile) (j : Nat) : Option String :=
  match f with
  | some file => if file.url ≠ "" ∧ file.index = some j then some file.url else none
  | none => none

/-- The storage URL that the forEach leaves at index j: the hit of the latest
entry targeting j, if any. -/
def savedUrlAt : List (Option AIFile) → Nat → Option String
  | [], _ => none
  | f :: rest, j =>
    match savedUrlAt rest j with
    | some u => some u
    | none => savedUrlHit f j

/-- The files-to-save list built from the videos array by the webhook handler
(content type video/mp4, key built from the timestamp and index). -/
def videoFilesToSave (now : Nat) (videos : List AIVideo) : List AIFile :=
  videos.mapIdx (fun i v =>
    { url := v.videoUrl, contentType := "video/mp4",
      key := "evolink/video/" ++ toString now ++ "-" ++ toString i ++ ".mp4",
      index := some i, type := "video" })

/-- The files-to-save list built from the images array by the webhook handler
(content type image/png, key built from the timestamp and index). -/
def imageFilesToSave (now : Nat) (images : List AIImage) : List AIFile :=
  images.mapIdx (fun i v =>
    { url := v.imageUrl, contentType := "image/png",
      key := "evolink/image/" ++ toString now ++ "-" ++ toString i ++ ".png",
      index := some i, type := "image" })

/- ===== The Evolink webhook handler ===== -/

/-- The task info built by the webhook handler from the payload, together
with the list of saveFiles calls made (instrumentation of the save effect):
on SUCCESS with a results array present, the videos or images array is built
from the results, and when custom storage is enabled and the array is
nonempty, saveFiles is called and the returned files overwrite the URLs at
their indices. -/
def buildEvolinkTaskInfo (cfg : Configs)
    (saveFilesOracle : List AIFile → Option (List (Option AIFile)))
    (now : Nat) (p : EvolinkTaskPayload) : TaskInfo × List (List AIFile) :=
  let taskStatus := mapEvolinkStatusOpt p.status
  let base : TaskInfo :=
    { status := p.status,
      errorCode := jsOrStr (p.error.map EvolinkError.code) "",
      errorMessage := jsOrStr (p.error.map EvolinkError.message) "",
      videos := none, images := none }
  match p.results with
  | none => (base, [])
  | some results =>
    if taskStatus = AITaskStatus.SUCCESS then
      let useCustomStorage := cfg.evolink_custom_storage = some "true"
      if p.type = some "video" then
        let videos := results.map (fun url =>
          { id := "", createTime := now, videoUrl := url })
        if useCustomStorage ∧ 0 < videos.length then
          let filesToSave := videoFilesToSave now videos
          match saveFilesOracle filesToSave with
          | some uploadedFiles =>
            ({ base with videos := some (applyUploadedVideos videos uploadedFiles) },
             [filesToSave])
          | none => ({ base with videos := some videos }, [filesToSave])
        else ({ base with videos := some videos }, [])
      else
        let images := results.map (fun url =>
          { id := "", createTime := now, imageUrl := url })
        if useCustomStorage ∧ 0 < images.length then
          let filesToSave := imageFilesToSave now images
          match saveFilesOracle filesToSave with
          | some uploadedFiles =>
            ({ base with images := some (applyUploadedImages images uploadedFiles) },
             [filesToSave])
          | none => ({ base with images := some images }, [filesToSave])
        else ({ base with images := some images }, [])
    else (base, [])

/-- The response and resulting database state of the webhook handler. -/
structure EvolinkWebhookResult where
  respStatus : Nat
  message : String
  db : List AITask
deriving DecidableEq, Repr

/-- The Evolink webhook POST handler
(app/api/ai/notify/evolink/route.ts): a falsy payload id answers 400, a
missing task row answers 404, otherwise the row found by provider task id is
updated with the mapped status, the built task info, the raw request body and
the stored credit id, answering a success message. -/
def evolinkWebhookPOST (cfg : Configs)
    (saveFilesOracle : List AIFile → Option (List (Option AIFile)))
    (now : Nat) (db : List AITask) (p : EvolinkTaskPayload) (rawBody : String) :
    EvolinkWebhookResult :=
  match p.id with
  | none => ⟨400, "Missing task id", db⟩
  | some tid =>
    if tid = "" then ⟨400, "Missing task id", db⟩
    else
      match findAITaskByProviderTaskId db tid "evolink" with
      | none => ⟨404, "Task not found", db⟩
      | some task =>
        let updateData : UpdateAITask :=
          { status := mapEvolinkStatusOpt p.status,
            taskInfo := (buildEvolinkTaskInfo cfg saveFilesOracle now p).1,
            taskResult := rawBody,
            creditId := task.creditId }
        ⟨200, "success", updateAITaskById db task.id updateData⟩

/- ===== Theorems for claims C2 and C6 ===== -/

/-- C2: for every Evolink webhook POST, a payload whose id is falsy answers
400 with the database untouched; a present id with no matching task row for
provider evolink answers 404 with the database untouched; otherwise exactly
the rows carrying the id of the found task are rewritten with the mapped
status, the built task info, the raw request body as task result and the
stored credit id, every other row is untouched, the handler answers the
success message, and under unique row ids the found task is the only row
with its id. -/
theorem evolink_webhook_row_update_semantics (cfg : Configs)
    (oracle : List AIFile → Option (List (Option AIFile))) (now : Nat)
    (db : List AITask) (p : EvolinkTaskPayload) (rawBody : String) :
    (jsFalsyStr p.id →
      evolinkWebhookPOST cfg oracle now db p rawBody = ⟨400, "Missing task id", db⟩)
  ∧ (∀ tid, p.id = some tid → tid ≠ "" →
      findAITaskByProviderTaskId db tid "evolink" = none →
      evolinkWebhookPOST cfg oracle now db p rawBody = ⟨404, "Task not found", db⟩)
  ∧ (∀ tid task, p.id = some tid → tid ≠ "" →
      findAITaskByProviderTaskId db tid "evolink" = some task →
      evolinkWebhookPOST cfg oracle now db p rawBody =
        ⟨200, "success",
         db.map (fun t => if t.id = task.id then applyUpdateAITask t
           { status := mapEvolinkStatusOpt p.status,
             taskInfo := (buildEvolinkTaskInfo cfg oracle now p).1,
             taskResult := rawBody,
             creditId := task.creditId } else t)⟩
      ∧ ((db.map AITask.id).Nodup → ∀ t ∈ db, t.id = task.id → t = task)) := by
  refine ⟨?_, ?_, ?_⟩
  · intro h
    rcases h with h | h <;> simp [evolinkWebhookPOST, h]
  · intro tid htid hne hfind
    simp [evolinkWebhookPOST, htid, hne, hfind]
  · intro tid task htid hne hfind
    constructor
    · simp [evolinkWebhookPOST, htid, hne, hfind, updateAITaskById]
    · intro hnodup t ht hid
      have htask : task ∈ db := List.mem_of_find?_eq_some hfind
      exact List.inj_on_of_nodup_map hnodup ht htask hid

/-- Shared sample task info for concrete witnesses. -/
def sampleTaskInfo : TaskInfo :=
  { status := none, errorCode := "", errorMessage := "", videos := none, images := none }

/-- Shared sample task row for concrete witnesses. -/
def sampleTask : AITask :=
  { id := "t1", providerTaskId := "p1", provider := "evolink",
    status := AITaskStatus.PENDING, taskInfo := sampleTaskInfo,
    taskResult := "", creditId := "c1" }

/-- Shared sample database for concrete witnesses. -/
def sampleDb : List AITask := [sampleTask]

/-- Shared sample configs (custom storage not enabled) for witnesses. -/
def sampleCfg : Configs := { evolink_custom_storage := none }

/-- Shared saveFiles oracle that reports no uploaded files. -/
def sampleOracle : List AIFile → Option (List (Option AIFile)) := fun _ => none

/-- Shared sample webhook payload naming the sample task. -/
def samplePayload : EvolinkTaskPayload :=
  { id := some "p1", status := some "completed", results := none,
    type := none, error := none }

/-- Witness for C2: the webhook theorem applied on a one-row database that
matches the payload (success message) and on the empty database (404). -/
theorem evolink_webhook_row_update_semantics_witness :
    (evolinkWebhookPOST sampleCfg sampleOracle 0 sampleDb samplePayload "raw").message
      = "success"
  ∧ evolinkWebhookPOST sampleCfg sampleOracle 0 [] samplePayload "raw"
      = ⟨404, "Task not found", []⟩ :=
  ⟨by rw [((evolink_webhook_row_update_semantics sampleCfg sampleOracle 0 sampleDb
        samplePayload "raw").2.2 "p1" sampleTask rfl (by decide) (by decide)).1],
   (evolink_webhook_row_update_semantics sampleCfg sampleOracle 0 []
        samplePayload "raw").2.1 "p1" rfl (by decide) (by decide)⟩

/-- C6: every successful Evolink webhook update rewrites the database through
a per-row function that writes only the four update fields: for every row the
id, providerTaskId and provider are unchanged, and the creditId is rewritten
with the value already stored on the found task, so on a database with unique
row ids the creditId of every row is also unchanged. -/
theorem evolink_webhook_update_preserves_identity_fields (cfg : Configs)
    (oracle : List AIFile → Option (List (Option AIFile))) (now : Nat)
    (db : List AITask) (p : EvolinkTaskPayload) (rawBody : String)
    (tid : String) (task : AITask)
    (htid : p.id = some tid) (hne : tid ≠ "")
    (hfind : findAITaskByProviderTaskId db tid "evolink" = some task)
    (hnodup : (db.map AITask.id).Nodup) :
    ∃ f, (evolinkWebhookPOST cfg oracle now db p rawBody).db = db.map f
      ∧ ∀ t ∈ db, (f t).id = t.id ∧ (f t).providerTaskId = t.providerTaskId
          ∧ (f t).provider = t.provider ∧ (f t).creditId = t.creditId := by
  refine ⟨fun t => if t.id = task.id then applyUpdateAITask t
      { status := mapEvolinkStatusOpt p.status,
        taskInfo := (buildEvolinkTaskInfo cfg oracle now p).1,
        taskResult := rawBody,
        creditId := task.creditId } else t, ?_, ?_⟩
  · simp [evolinkWebhookPOST, htid, hne, hfind, updateAITaskById]
  · intro t ht
    by_cases hid : t.id = task.id
    · have htask : task ∈ db := List.mem_of_find?_eq_some hfind
      have heq : t = task := List.inj_on_of_nodup_map hnodup ht htask hid
      subst heq
      simp [applyUpdateAITask, hid]
    · simp [hid]

/-- Witness for C6: on the concrete one-row database, the updated database
keeps the stored credit id. -/
theorem evolink_webhook_update_preserves_identity_fields_witness :
    (evolinkWebhookPOST sampleCfg sampleOracle 0 sampleDb samplePayload "raw").db.map
      AITask.creditId = ["c1"] := by
  obtain ⟨f, hdb, hfields⟩ :=
    evolink_webhook_update_preserves_identity_fields sampleCfg sampleOracle 0
      sampleDb samplePayload "raw" "p1" sampleTask rfl (by decide) (by decide)
      (by decide)
  rw [hdb]
  have h := (hfields sampleTask (by simp [sampleDb])).2.2.2
  simpa [sampleDb, sampleTask] using h

/- ===== Characterization of the URL replacement loops ===== -/

theorem setVideoUrlAt_length (vs : List AIVideo) (i : Nat) (url : String) :
    (setVideoUrlAt vs i url).length = vs.length := by
  induction vs generalizing i with
  | nil => rfl
  | cons v rest ih => cases i <;> simp [setVideoUrlAt, ih]

theorem setImageUrlAt_length (vs : List AIImage) (i : Nat) (url : String) :
    (setImageUrlAt vs i url).length = vs.length := by
  induction vs generalizing i with
  | nil => rfl
  | cons v rest ih => cases i <;> simp [setImageUrlAt, ih]

theorem setVideoUrlAt_getq (vs : List AIVideo) (i : Nat) (url : String)
    (j : Nat) :
    (setVideoUrlAt vs i url)[j]? =
      (vs[j]?).map (fun v => if j = i then { v with videoUrl := url } else v) := by
  induction vs generalizing i j with
  | nil => simp [setVideoUrlAt]
  | cons v rest ih =>
    cases i with
    | zero =>
      cases j with
      | zero => simp [setVideoUrlAt]
      | succ m =>
        simp only [setVideoUrlAt, List.getElem?_cons_succ]
        cases h : rest[m]? <;> simp [h]
    | succ n =>
      cases j with
      | zero => simp [setVideoUrlAt]
      | succ m =>
        simp only [setVideoUrlAt, List.getElem?_cons_succ]
        rw [ih n m]
        cases h : rest[m]? <;> simp [h, Nat.succ_inj]

theorem setImageUrlAt_getq (vs : List AIImage) (i : Nat) (url : String)
    (j : Nat) :
    (setImageUrlAt vs i url)[j]? =
      (vs[j]?).map (fun v => if j = i then { v with imageUrl := url } else v) := by
  induction vs generalizing i j with
  | nil => simp [setImageUrlAt]
  | cons v rest ih =>
    cases i with
    | zero =>
      cases j with
      | zero => simp [setImageUrlAt]
      | succ m =>
        simp only [setImageUrlAt, List.getElem?_cons_succ]
        cases h : rest[m]? <;> simp [h]
    | succ n =>
      cases j with
      | zero => simp [setImageUrlAt]
      | succ m =>
        simp only [setImageUrlAt, List.getElem?_cons_succ]
        rw [ih n m]
        cases h : rest[m]? <;> simp [h, Nat.succ_inj]

theorem applyUploadedVideoFile_getq (vs : List AIVideo) (f : Option AIFile)
    (j : Nat) :
    (applyUploadedVideoFile vs f)[j]? =
      (vs[j]?).map (fun v =>
        match savedUrlHit f j with
        | some u => { v with videoUrl := u }
        | none => v) := by
  cases f with
  | none =>
    simp only [applyUploadedVideoFile, savedUrlHit]
    cases h : vs[j]? <;> simp [h]
  | some file =>
    by_cases hurl : file.url = ""
    · simp only [applyUploadedVideoFile, savedUrlHit, hurl]
      cases h : vs[j]? <;> simp [h]
    · cases hidx : file.index with
      | none =>
        simp only [applyUploadedVideoFile, savedUrlHit, hurl, hidx]
        cases h : vs[j]? <;> simp [h]
      | some i =>
        simp only [applyUploadedVideoFile, savedUrlHit, hurl, hidx, ne_eq,
          not_false_iff, if_true]
        rw [setVideoUrlAt_getq]
        by_cases hji : j = i
        · cases h : vs[j]? <;> simp [h, hji]
        · have hij : ¬ (i = j) := fun h => hji h.symm
          cases h : vs[j]? <;> simp [h, hji, hij]

theorem applyUploadedImageFile_getq (vs : List AIImage) (f : Option AIFile)
    (j : Nat) :
    (applyUploadedImageFile vs f)[j]? =
      (vs[j]?).map (fun v =>
        match savedUrlHit f j with
        | some u => { v with imageUrl := u }
        | none => v) := by
  cases f with
  | none =>
    simp only [applyUploadedImageFile, savedUrlHit]
    cases h : vs[j]? <;> simp [h]
  | some file =>
    by_cases hurl : file.url = ""
    · simp only [applyUploadedImageFile, savedUrlHit, hurl]
      cases h : vs[j]? <;> simp [h]
    · cases hidx : file.index with
      | none =>
        simp only [applyUploadedImageFile, savedUrlHit, hurl, hidx]
        cases h : vs[j]? <;> simp [h]
      | some i =>
        simp only [applyUploadedImageFile, savedUrlHit, hurl, hidx, ne_eq,
          not_false_iff, if_true]
        rw [setImageUrlAt_getq]
        by_cases hji : j = i
        · cases h : vs[j]? <;> simp [h, hji]
        · have hij : ¬ (i = j) := fun h => hji h.symm
          cases h : vs[j]? <;> simp [h, hji, hij]

theorem applyUploadedVideos_getq (up : List (Option AIFile)) :
    ∀ (vs : List AIVideo) (j : Nat),
    (applyUploadedVideos vs up)[j]? =
      (vs[j]?).map (fun v =>
        match savedUrlAt up j with
        | some u => { v with videoUrl := u }
        | none => v) := by
  induction up with
  | nil =>
    intro vs j
    simp only [applyUploadedVideos, List.foldl_nil, savedUrlAt]
    cases h : vs[j]? <;> simp [h]
  | cons f rest ih =>
    intro vs j
    have h1 : applyUploadedVideos vs (f :: rest)
        = applyUploadedVideos (applyUploadedVideoFile vs f) rest := rfl
    rw [h1, ih (applyUploadedVideoFile vs f) j, applyUploadedVideoFile_getq]
    have hunf : savedUrlAt (f :: rest) j =
        match savedUrlAt rest j with
        | some u => some u
        | none => savedUrlHit f j := rfl
    rw [hunf]
    cases hrest : savedUrlAt rest j with
    | some u =>
      cases hhit : savedUrlHit f j <;> cases h : vs[j]? <;> simp [h]
    | none =>
      cases hhit : savedUrlHit f j <;> cases h : vs[j]? <;> simp [h]

theorem applyUploadedImages_getq (up : List (Option AIFile)) :
    ∀ (vs : List AIImage) (j : Nat),
    (applyUploadedImages vs up)[j]? =
      (vs[j]?).map (fun v =>
        match savedUrlAt up j with
        | some u => { v with imageUrl := u }
        | none => v) := by
  induction up with
  | nil =>
    intro vs j
    simp only [applyUploadedImages, List.foldl_nil, savedUrlAt]
    cases h : vs[j]? <;> simp [h]
  | cons f rest ih =>
    intro vs j
    have h1 : applyUploadedImages vs (f :: rest)
        = applyUploadedImages (applyUploadedImageFile vs f) rest := rfl
    rw [h1, ih (applyUploadedImageFile vs f) j, applyUploadedImageFile_getq]
    have hunf : savedUrlAt (f :: rest) j =
        match savedUrlAt rest j with
        | some u => some u
        | none => savedUrlHit f j := rfl
    rw [hunf]
    cases hrest : savedUrlAt rest j with
    | some u =>
      cases hhit : savedUrlHit f j <;> cases h : vs[j]? <;> simp [h]
    | none =>
      cases hhit : savedUrlHit f j <;> cases h : vs[j]? <;> simp [h]

/- ===== The EvolinkProvider query method ===== -/

namespace AIMediaType

/-- The video media type value (extensions/ai types, modeled as the vendor
media type string compared by the adapters). -/
def VIDEO : String := "video"

/-- The image media type value. -/
def IMAGE : String := "image"

end AIMediaType

namespace EvolinkProvider

/-- The EvolinkConfigs shape of the adapter (the boolean customStorage flag
is built from the evolink_custom_storage config string by the AI manager). -/
structure EvolinkConfigs where
  apiKey : String
  baseUrl : Option String
  customStorage : Bool
deriving DecidableEq, Repr

/-- The HTTP response of the task query GET call: the ok flag, the numeric
status and the parsed JSON body. -/
structure QueryHttpResp where
  ok : Bool
  status : Nat
  body : EvolinkTaskPayload
deriving DecidableEq, Repr

/-- The AITaskResult returned by query, with the list of saveFiles calls made
(instrumentation of the save effect). -/
structure QueryOutcome where
  taskId : String
  taskStatus : AITaskStatus
  images : Option (List AIImage)
  videos : Option (List AIVideo)
  status : Option String
  saveCalls : List (List AIFile)
deriving DecidableEq, Repr

/-- The files-to-save list built by query from the images array: one file per
image with a nonempty URL, carrying the image position as index and a
uuid-based key (the uuid generator is an oracle indexed by position). -/
def queryImageFilesToSave (uuid : Nat → String) (images : List AIImage) :
    List AIFile :=
  (images.mapIdx (fun i img =>
    { url := img.imageUrl, contentType := "image/png",
      key := "evolink/image/" ++ uuid i ++ ".png",
      index := some i, type := "image" })).filter (fun f => f.url ≠ "")

/-- The files-to-save list built by query from the videos array. -/
def queryVideoFilesToSave (uuid : Nat → String) (videos : List AIVideo) :
    List AIFile :=
  (videos.mapIdx (fun i v =>
    { url := v.videoUrl, contentType := "video/mp4",
      key := "evolink/video/" ++ uuid i ++ ".mp4",
      index := some i, type := "video" })).filter (fun f => f.url ≠ "")

/-- The query method of the EvolinkProvider adapter: a non-ok HTTP response
raises; a mapped status other than SUCCESS returns the status only; on
SUCCESS the results array becomes the videos or images array depending on the
media type, and when customStorage is enabled the nonempty URLs are saved via
saveFiles and the uploaded files overwrite the URLs at their indices. -/
def query (cfg : EvolinkConfigs)
    (saveFilesOracle : List AIFile → Option (List (Option AIFile)))
    (uuid : Nat → String) (now : Nat) (taskId : String)
    (mediaType : Option String) (resp : QueryHttpResp) :
    Except String QueryOutcome :=
  if resp.ok = false then
    Except.error ("Evolink query failed with status: " ++ toString resp.status)
  else
    let data := resp.body
    let taskStatus := mapStatus data.status
    if taskStatus ≠ AITaskStatus.SUCCESS then
      Except.ok { taskId := taskId, taskStatus := taskStatus, images := none,
                  videos := none, status := data.status, saveCalls := [] }
    else
      let results := data.results.getD []
      if data.type = some "video" ∨ mediaType = some AIMediaType.VIDEO then
        let videos := results.map (fun url =>
          { id := "", createTime := now, videoUrl := url })
        if cfg.customStorage then
          let filesToSave := queryVideoFilesToSave uuid videos
          if 0 < filesToSave.length then
            match saveFilesOracle filesToSave with
            | some up =>
              Except.ok { taskId := taskId, taskStatus := taskStatus,
                          images := none,
                          videos := some (applyUploadedVideos videos up),
                          status := data.status, saveCalls := [filesToSave] }
            | none =>
              Except.ok { taskId := taskId, taskStatus := taskStatus,
                          images := none, videos := some videos,
                          status := data.status, saveCalls := [filesToSave] }
          else
            Except.ok { taskId := taskId, taskStatus := taskStatus,
                        images := none, videos := some videos,
                        status := data.status, saveCalls := [] }
        else
          Except.ok { taskId := taskId, taskStatus := taskStatus,
                      images := none, videos := some videos,
                      status := data.status, saveCalls := [] }
      else
        let images := results.map (fun url =>
          { id := "", createTime := now, imageUrl := url })
        if cfg.customStorage then
          let filesToSave := queryImageFilesToSave uuid images
          if 0 < filesToSave.length then
            match saveFilesOracle filesToSave with
            | some up =>
              Except.ok { taskId := taskId, taskStatus := taskStatus,
                          images := some (applyUploadedImages images up),
                          videos := none,
                          status := data.status, saveCalls := [filesToSave] }
            | none =>
              Except.ok { taskId := taskId, taskStatus := taskStatus,
                          images := some images, videos := none,
                          status := data.status, saveCalls := [filesToSave] }
          else
            Except.ok { taskId := taskId, taskStatus := taskStatus,
                        images := some images, videos := none,
                        status := data.status, saveCalls := [] }
        else
          Except.ok { taskId := taskId, taskStatus := taskStatus,
                      images := some images, videos := none,
                      status := data.status, saveCalls := [] }

end EvolinkProvider

/- ===== Helper forms for the success-media storage claim ===== -/

/-- The videos array built from a results array (shorthand for the map used
by the webhook handler and by query). -/
def mkVideos (now : Nat) (results : List String) : List AIVideo :=
  results.map (fun url => { id := "", createTime := now, videoUrl := url })

/-- The images array built from a results array. -/
def mkImages (now : Nat) (results : List String) : List AIImage :=
  results.map (fun url => { id := "", createTime := now, imageUrl := url })

/-- The URL recorded at index j after the saveFiles round trip: the storage
URL of the latest file saved successfully at index j, or the original URL
when no file was saved at j or saveFiles returned nothing. -/
def storageFinalUrl (saveFilesOracle : List AIFile → Option (List (Option AIFile)))
    (filesToSave : List AIFile) (j : Nat) (orig : String) : String :=
  match saveFilesOracle filesToSave with
  | some up => (savedUrlAt up j).getD orig
  | none => orig

theorem mkVideos_final_urls (now : Nat) (results : List String)
    (up : List (Option AIFile)) (j : Nat) :
    ((applyUploadedVideos (mkVideos now results) up)[j]?).map AIVideo.videoUrl
      = (results[j]?).map (fun orig => (savedUrlAt up j).getD orig) := by
  rw [applyUploadedVideos_getq, mkVideos, List.getElem?_map]
  cases h : results[j]? with
  | none => simp
  | some orig => cases hs : savedUrlAt up j <;> simp [hs]

theorem mkImages_final_urls (now : Nat) (results : List String)
    (up : List (Option AIFile)) (j : Nat) :
    ((applyUploadedImages (mkImages now results) up)[j]?).map AIImage.imageUrl
      = (results[j]?).map (fun orig => (savedUrlAt up j).getD orig) := by
  rw [applyUploadedImages_getq, mkImages, List.getElem?_map]
  cases h : results[j]? with
  | none => simp
  | some orig => cases hs : savedUrlAt up j <;> simp [hs]

theorem mkVideos_orig_urls (now : Nat) (results : List String) (j : Nat) :
    ((mkVideos now results)[j]?).map AIVideo.videoUrl = results[j]? := by
  rw [mkVideos, List.getElem?_map]
  cases h : results[j]? <;> simp [h]

theorem mkImages_orig_urls (now : Nat) (results : List String) (j : Nat) :
    ((mkImages now results)[j]?).map AIImage.imageUrl = results[j]? := by
  rw [mkImages, List.getElem?_map]
  cases h : results[j]? <;> simp [h]

/- ===== Theorem for claim C4 ===== -/

/-- C4: for every Evolink task outcome whose mapped status is SUCCESS and
that carries a results array, when custom storage is enabled the media files
are handed to saveFiles and the URL recorded at each index is the storage URL
of the file saved successfully at that index, original URLs being kept where
no file was saved; when custom storage is disabled, or the mapped status is
not SUCCESS, no saveFiles call is made and the original provider URLs are
kept. This holds for the webhook handler (video and image branches) and for
the query method of the provider adapter. -/
theorem evolink_success_media_custom_storage (cfg : Configs)
    (oracle : List AIFile → Option (List (Option AIFile))) (now : Nat)
    (p : EvolinkTaskPayload) (results : List String)
    (qcfg : EvolinkProvider.EvolinkConfigs) (uuid : Nat → String)
    (taskId : String) (mediaType : Option String)
    (resp : EvolinkProvider.QueryHttpResp) :
    (p.results = some results →
     mapEvolinkStatusOpt p.status = AITaskStatus.SUCCESS →
     cfg.evolink_custom_storage = some "true" → results ≠ [] →
     p.type = some "video" →
      (buildEvolinkTaskInfo cfg oracle now p).2
        = [videoFilesToSave now (mkVideos now results)]
      ∧ ∃ fv, (buildEvolinkTaskInfo cfg oracle now p).1.videos = some fv ∧
          ∀ j, (fv[j]?).map AIVideo.videoUrl =
            (results[j]?).map
              (storageFinalUrl oracle (videoFilesToSave now (mkVideos now results)) j))
  ∧ (p.results = some results →
     mapEvolinkStatusOpt p.status = AITaskStatus.SUCCESS →
     cfg.evolink_custom_storage = some "true" → results ≠ [] →
     p.type ≠ some "video" →
      (buildEvolinkTaskInfo cfg oracle now p).2
        = [imageFilesToSave now (mkImages now results)]
      ∧ ∃ fi, (buildEvolinkTaskInfo cfg oracle now p).1.images = some fi ∧
          ∀ j, (fi[j]?).map AIImage.imageUrl =
            (results[j]?).map
              (storageFinalUrl oracle (imageFilesToSave now (mkImages now results)) j))
  ∧ (p.results = some results →
     mapEvolinkStatusOpt p.status = AITaskStatus.SUCCESS →
     cfg.evolink_custom_storage ≠ some "true" →
      (buildEvolinkTaskInfo cfg oracle now p).2 = []
      ∧ (p.type = some "video" →
          (buildEvolinkTaskInfo cfg oracle now p).1.videos = some (mkVideos now results))
      ∧ (p.type ≠ some "video" →
          (buildEvolinkTaskInfo cfg oracle now p).1.images = some (mkImages now results)))
  ∧ (mapEvolinkStatusOpt p.status ≠ AITaskStatus.SUCCESS →
      (buildEvolinkTaskInfo cfg oracle now p).2 = []
      ∧ (buildEvolinkTaskInfo cfg oracle now p).1.videos = none
      ∧ (buildEvolinkTaskInfo cfg oracle now p).1.images = none)
  ∧ (resp.ok = true →
     EvolinkProvider.mapStatus resp.body.status = AITaskStatus.SUCCESS →
     (resp.body.type = some "video" ∨ mediaType = some AIMediaType.VIDEO) →
     qcfg.customStorage = true →
     EvolinkProvider.queryVideoFilesToSave uuid
       (mkVideos now (resp.body.results.getD [])) ≠ [] →
      ∃ o, EvolinkProvider.query qcfg oracle uuid now taskId mediaType resp
          = Except.ok o
        ∧ o.saveCalls = [EvolinkProvider.queryVideoFilesToSave uuid
            (mkVideos now (resp.body.results.getD []))]
        ∧ ∃ fv, o.videos = some fv ∧
            ∀ j, (fv[j]?).map AIVideo.videoUrl =
              ((resp.body.results.getD [])[j]?).map
                (storageFinalUrl oracle
                  (EvolinkProvider.queryVideoFilesToSave uuid
                    (mkVideos now (resp.body.results.getD []))) j))
  ∧ (resp.ok = true →
     EvolinkProvider.mapStatus resp.body.status = AITaskStatus.SUCCESS →
     ¬ (resp.body.type = some "video" ∨ mediaType = some AIMediaType.VIDEO) →
     qcfg.customStorage = true →
     EvolinkProvider.queryImageFilesToSave uuid
       (mkImages now (resp.body.results.getD [])) ≠ [] →
      ∃ o, EvolinkProvider.query qcfg oracle uuid now taskId mediaType resp
          = Except.ok o
        ∧ o.saveCalls = [EvolinkProvider.queryImageFilesToSave uuid
            (mkImages now (resp.body.results.getD []))]
        ∧ ∃ fi, o.images = some fi ∧
            ∀ j, (fi[j]?).map AIImage.imageUrl =
              ((resp.body.results.getD [])[j]?).map
                (storageFinalUrl oracle
                  (EvolinkProvider.queryImageFilesToSave uuid
                    (mkImages now (resp.body.results.getD []))) j))
  ∧ (resp.ok = true →
     EvolinkProvider.mapStatus resp.body.status = AITaskStatus.SUCCESS →
     qcfg.customStorage = false →
      ∃ o, EvolinkProvider.query qcfg oracle uuid now taskId mediaType resp
          = Except.ok o
        ∧ o.saveCalls = []
        ∧ ((resp.body.type = some "video" ∨ mediaType = some AIMediaType.VIDEO) →
            o.videos = some (mkVideos now (resp.body.results.getD [])))
        ∧ (¬ (resp.body.type = some "video" ∨ mediaType = some AIMediaType.VIDEO) →
            o.images = some (mkImages now (resp.body.results.getD []))))
  ∧ (resp.ok = true →
     EvolinkProvider.mapStatus resp.body.status ≠ AITaskStatus.SUCCESS →
      EvolinkProvider.query qcfg oracle uuid now taskId mediaType resp
        = Except.ok
          { taskId := taskId,
            taskStatus := EvolinkProvider.mapStatus resp.body.status,
            images := none, videos := none,
            status := resp.body.status, saveCalls := [] }) := by
  refine ⟨?_, ?_, ?_, ?_, ?_, ?_, ?_, ?_⟩
  · intro hr hs hen hne hv
    have hlen2 : 0 < results.length := List.length_pos.mpr hne
    cases horacle : oracle (videoFilesToSave now (mkVideos now results)) with
    | some up =>
      simp only [mkVideos] at horacle
      refine ⟨?_, applyUploadedVideos (mkVideos now results) up, ?_, ?_⟩
      · simp [buildEvolinkTaskInfo, hr, hs, hen, hv, hlen2, horacle, mkVideos]
      · simp [buildEvolinkTaskInfo, hr, hs, hen, hv, hlen2, horacle, mkVideos]
      · intro j
        rw [mkVideos_final_urls]
        cases h : results[j]? <;> simp [h, storageFinalUrl, mkVideos, horacle]
    | none =>
      simp only [mkVideos] at horacle
      refine ⟨?_, mkVideos now results, ?_, ?_⟩
      · simp [buildEvolinkTaskInfo, hr, hs, hen, hv, hlen2, horacle, mkVideos]
      · simp [buildEvolinkTaskInfo, hr, hs, hen, hv, hlen2, horacle, mkVideos]
      · intro j
        rw [mkVideos_orig_urls]
        cases h : results[j]? <;> simp [h, storageFinalUrl, mkVideos, horacle]
  · intro hr hs hen hne hi
    have hlen2 : 0 < results.length := List.length_pos.mpr hne
    cases horacle : oracle (imageFilesToSave now (mkImages now results)) with
    | some up =>
      simp only [mkImages] at horacle
      refine ⟨?_, applyUploadedImages (mkImages now results) up, ?_, ?_⟩
      · simp [buildEvolinkTaskInfo, hr, hs, hen, hi, hlen2, horacle, mkImages]
      · simp [buildEvolinkTaskInfo, hr, hs, hen, hi, hlen2, horacle, mkImages]
      · intro j
        rw [mkImages_final_urls]
        cases h : results[j]? <;> simp [h, storageFinalUrl, mkImages, horacle]
    | none =>
      simp only [mkImages] at horacle
      refine ⟨?_, mkImages now results, ?_, ?_⟩
      · simp [buildEvolinkTaskInfo, hr, hs, hen, hi, hlen2, horacle, mkImages]
      · simp [buildEvolinkTaskInfo, hr, hs, hen, hi, hlen2, horacle, mkImages]
      · intro j
        rw [mkImages_orig_urls]
        cases h : results[j]? <;> simp [h, storageFinalUrl, mkImages, horacle]
  · intro hr hs hdis
    refine ⟨?_, ?_, ?_⟩
    · by_cases hv : p.type = some "video" <;>
        simp [buildEvolinkTaskInfo, hr, hs, hdis, hv]
    · intro hv
      simp [buildEvolinkTaskInfo, hr, hs, hdis, hv, mkVideos]
    · intro hi
      simp [buildEvolinkTaskInfo, hr, hs, hdis, hi, mkImages]
  · intro hns
    cases hres : p.results with
    | none => simp [buildEvolinkTaskInfo, hres]
    | some rs => simp [buildEvolinkTaskInfo, hres, hns]
  · intro hok hqs hqv hen hfts
    have hlen : 0 < (EvolinkProvider.queryVideoFilesToSave uuid
        (mkVideos now (resp.body.results.getD []))).length :=
      List.length_pos.mpr hfts
    cases horacle : oracle (EvolinkProvider.queryVideoFilesToSave uuid
        (mkVideos now (resp.body.results.getD []))) with
    | some up =>
      simp only [mkVideos] at horacle hlen
      have hq : EvolinkProvider.query qcfg oracle uuid now taskId mediaType resp
          = Except.ok
            { taskId := taskId,
              taskStatus := EvolinkProvider.mapStatus resp.body.status,
              images := none,
              videos := some (applyUploadedVideos
                (mkVideos now (resp.body.results.getD [])) up),
              status := resp.body.status,
              saveCalls := [EvolinkProvider.queryVideoFilesToSave uuid
                (mkVideos now (resp.body.results.getD []))] } := by
        simp [EvolinkProvider.query, hok, hqs, hqv, hen, hlen, horacle, mkVideos]
      refine ⟨_, hq, rfl, _, rfl, ?_⟩
      intro j
      rw [mkVideos_final_urls]
      cases h : (resp.body.results.getD [])[j]? <;>
        simp [h, storageFinalUrl, mkVideos, horacle]
    | none =>
      simp only [mkVideos] at horacle hlen
      have hq : EvolinkProvider.query qcfg oracle uuid now taskId mediaType resp
          = Except.ok
            { taskId := taskId,
              taskStatus := EvolinkProvider.mapStatus resp.body.status,
              images := none,
              videos := some (mkVideos now (resp.body.results.getD [])),
              status := resp.body.status,
              saveCalls := [EvolinkProvider.queryVideoFilesToSave uuid
                (mkVideos now (resp.body.results.getD []))] } := by
        simp [EvolinkProvider.query, hok, hqs, hqv, hen, hlen, horacle, mkVideos]
      refine ⟨_, hq, rfl, _, rfl, ?_⟩
      intro j
      rw [mkVideos_orig_urls]
      cases h : (resp.body.results.getD [])[j]? <;>
        simp [h, storageFinalUrl, mkVideos, horacle]
  · intro hok hqs hqi hen hfts
    have hlen : 0 < (EvolinkProvider.queryImageFilesToSave uuid
        (mkImages now (resp.body.results.getD []))).length :=
      List.length_pos.mpr hfts
    cases horacle : oracle (EvolinkProvider.queryImageFilesToSave uuid
        (mkImages now (resp.body.results.getD []))) with
    | some up =>
      simp only [mkImages] at horacle hlen
      have hq : EvolinkProvider.query qcfg oracle uuid now taskId mediaType resp
          = Except.ok
            { taskId := taskId,
              taskStatus := EvolinkProvider.mapStatus resp.body.status,
              images := some (applyUploadedImages
                (mkImages now (resp.body.results.getD [])) up),
              videos := none,
              status := resp.body.status,
              saveCalls := [EvolinkProvider.queryImageFilesToSave uuid
                (mkImages now (resp.body.results.getD []))] } := by
        simp [EvolinkProvider.query, hok, hqs, hqi, hen, hlen, horacle, mkImages]
      refine ⟨_, hq, rfl, _, rfl, ?_⟩
      intro j
      rw [mkImages_final_urls]
      cases h : (resp.body.results.getD [])[j]? <;>
        simp [h, storageFinalUrl, mkImages, horacle]
    | none =>
      simp only [mkImages] at horacle hlen
      have hq : EvolinkProvider.query qcfg oracle uuid now taskId mediaType resp
          = Except.ok
            { taskId := taskId,
              taskStatus := EvolinkProvider.mapStatus resp.body.status,
              images := some (mkImages now (resp.body.results.getD [])),
              videos := none,
              status := resp.body.status,
              saveCalls := [EvolinkProvider.queryImageFilesToSave uuid
                (mkImages now (resp.body.results.getD []))] } := by
        simp [EvolinkProvider.query, hok, hqs, hqi, hen, hlen, horacle, mkImages]
      refine ⟨_, hq, rfl, _, rfl, ?_⟩
      intro j
      rw [mkImages_orig_urls]
      cases h : (resp.body.results.getD [])[j]? <;>
        simp [h, storageFinalUrl, mkImages, horacle]
  · intro hok hqs hqdis
    by_cases hqv : resp.body.type = some "video" ∨ mediaType = some AIMediaType.VIDEO
    · have hq : EvolinkProvider.query qcfg oracle uuid now taskId mediaType resp
          = Except.ok
            { taskId := taskId,
              taskStatus := EvolinkProvider.mapStatus resp.body.status,
              images := none,
              videos := some (mkVideos now (resp.body.results.getD [])),
              status := resp.body.status, saveCalls := [] } := by
        simp [EvolinkProvider.query, hok, hqs, hqv, hqdis, mkVideos]
      refine ⟨_, hq, rfl, fun _ => rfl, fun hc => absurd hqv hc⟩
    · have hq : EvolinkProvider.query qcfg oracle uuid now taskId mediaType resp
          = Except.ok
            { taskId := taskId,
              taskStatus := EvolinkProvider.mapStatus resp.body.status,
              images := some (mkImages now (resp.body.results.getD [])),
              videos := none,
              status := resp.body.status, saveCalls := [] } := by
        simp [EvolinkProvider.query, hok, hqs, hqv, hqdis, mkImages]
      refine ⟨_, hq, rfl, fun hc => absurd hc hqv, fun _ => rfl⟩
  · intro hok hqns
    simp [EvolinkProvider.query, hok, hqns]

/- ===== Concrete inputs and witness for the storage claim ===== -/

/-- A concrete completed video payload with one result URL. -/
def c4Payload : EvolinkTaskPayload :=
  { id := some "p1", status := some "completed",
    results := some ["http-orig-0"], type := some "video", error := none }

def c4Cfg : Configs := { evolink_custom_storage := some "true" }

def c4CfgOff : Configs := { evolink_custom_storage := none }

def c4Oracle : List AIFile → Option (List (Option AIFile)) := fun _ =>
  some [some { url := "http-stored-0", contentType := "video/mp4",
               key := "k", index := some 0, type := "video" }]

def c4QueryCfg : EvolinkProvider.EvolinkConfigs :=
  { apiKey := "", baseUrl := none, customStorage := true }

def c4Uuid : Nat → String := fun _ => "u"

def c4RespFailed : EvolinkProvider.QueryHttpResp :=
  { ok := true, status := 200,
    body := { id := some "p1", status := some "failed", results := none,
              type := none, error := none } }

/-- Witness for C4: the storage theorem applied at concrete inputs, once with
custom storage enabled and an upload that replaces the URL at index 0, once
with custom storage disabled, and once on a failed status. -/
theorem evolink_success_media_custom_storage_witness :
    ((buildEvolinkTaskInfo c4Cfg c4Oracle 7 c4Payload).1.videos).map
        (fun vs => vs.map AIVideo.videoUrl) = some ["http-stored-0"]
  ∧ (buildEvolinkTaskInfo c4CfgOff c4Oracle 7 c4Payload).1.videos
        = some (mkVideos 7 ["http-orig-0"])
  ∧ EvolinkProvider.query c4QueryCfg c4Oracle c4Uuid 7 "t" none c4RespFailed
        = Except.ok
          { taskId := "t",
            taskStatus := EvolinkProvider.mapStatus c4RespFailed.body.status,
            images := none, videos := none,
            status := c4RespFailed.body.status, saveCalls := [] } := by
  refine ⟨?_, ?_, ?_⟩
  · obtain ⟨hcalls, fv, hfv, hurl⟩ :=
      (evolink_success_media_custom_storage c4Cfg c4Oracle 7 c4Payload
        ["http-orig-0"] c4QueryCfg c4Uuid "t" none c4RespFailed).1
        rfl (by decide) rfl (by decide) rfl
    rw [hfv]
    have h0 := hurl 0
    have h1 := hurl 1
    simp [storageFinalUrl, c4Oracle, savedUrlAt, savedUrlHit] at h0 h1
    cases fv with
    | nil => simp at h0
    | cons v rest =>
      cases rest with
      | nil => simpa using h0
      | cons v2 r2 => simp at h1
  · exact ((evolink_success_media_custom_storage c4CfgOff c4Oracle 7 c4Payload
      ["http-orig-0"] c4QueryCfg c4Uuid "t" none c4RespFailed).2.2.1
      rfl (by decide) (by decide)).2.1 rfl
  · exact (evolink_success_media_custom_storage c4CfgOff c4Oracle 7 c4Payload
      ["http-orig-0"] c4QueryCfg c4Uuid "t" none c4RespFailed).2.2.2.2.2.2.2
      rfl (by decide)

/- ===== The EvolinkProvider generate method ===== -/

namespace EvolinkProvider

/-- The AIGenerateParams shape read by generate. The options object is only
inspected for presence in the guard and is consumed by the request body
formatting, which does not influence the outcome fields; it is therefore
modeled by its presence. -/
structure AIGenerateParams where
  mediaType : Option String
  model : Option String
  prompt : Option String
  options : Option Unit
  callbackUrl : Option String
deriving DecidableEq, Repr

/-- The parsed JSON body of the generation response (id and status fields). -/
structure EvolinkGenBody where
  id : Option String
  status : Option String
deriving DecidableEq, Repr

/-- The HTTP response of the generation POST call: the ok flag, the numeric
status, the error text read on failure and the parsed JSON body (none models
a null body). -/
structure GenHttpResp where
  ok : Bool
  status : Nat
  errorText : String
  body : Option EvolinkGenBody
deriving DecidableEq, Repr

/-- The AITaskResult returned by generate, together with the endpoint of the
single POST made (instrumentation of the HTTP call). -/
structure GenerateOutcome where
  endpoint : String
  taskStatus : AITaskStatus
  taskId : String
  taskInfoStatus : Option String
deriving DecidableEq, Repr

/-- The single POST of generate and the handling of its response: a non-ok
response raises with the status and the error text; a null body or a falsy id
raises; otherwise the outcome carries the response id as taskId and the
mapped response status, an absent or empty status being replaced by pending.
The HTTP call is an oracle from the endpoint to the response. -/
def generateRequest (http : String → GenHttpResp) (endpoint : String) :
    Except String GenerateOutcome :=
  let resp := http endpoint
  if resp.ok = false then
    Except.error ("Evolink request failed with status: " ++ toString resp.status
      ++ ", message: " ++ resp.errorText)
  else
    match resp.body with
    | none => Except.error "Evolink generate failed: no id in response"
    | some data =>
      match data.id with
      | none => Except.error "Evolink generate failed: no id in response"
      | some tid =>
        if tid = "" then Except.error "Evolink generate failed: no id in response"
        else
          Except.ok
            { endpoint := endpoint,
              taskStatus := mapStatus (some (jsOrStr data.status "pending")),
              taskId := tid,
              taskInfoStatus := data.status }

/-- The generate method of the EvolinkProvider adapter: guards on the params,
endpoint selection by media type, then the single POST. The request body
formatting and the callback URL handling sit between the guards and the POST
in the source and do not influence the modeled outcome. -/
def generate (http : String → GenHttpResp) (p : AIGenerateParams) :
    Except String GenerateOutcome :=
  if jsFalsyStr p.mediaType then Except.error "mediaType is required"
  else if jsFalsyStr p.model then Except.error "model is required"
  else if jsFalsyStr p.prompt ∧ p.options = none then
    Except.error "prompt or options is required"
  else if p.mediaType = some AIMediaType.VIDEO then
    generateRequest http "/v1/videos/generations"
  else if p.mediaType = some AIMediaType.IMAGE then
    generateRequest http "/v1/images/generations"
  else Except.error "Unsupported media type"

end EvolinkProvider

/- ===== Theorem for claim C5 ===== -/

/-- C5: generate performs a single POST to the endpoint selected by media
type (videos generations for video, images generations for image) and
raises exactly when the media type is falsy, the model is falsy, prompt and
options are both missing, the media type is neither video nor image, the
HTTP response is not ok, or the response body lacks an id; otherwise it
returns the response id as taskId and the mapped response status, a missing
status being treated as pending. -/
theorem evolink_generate_contract (http : String → EvolinkProvider.GenHttpResp)
    (p : EvolinkProvider.AIGenerateParams) :
    (jsFalsyStr p.mediaType →
      EvolinkProvider.generate http p = Except.error "mediaType is required")
  ∧ (¬ jsFalsyStr p.mediaType → jsFalsyStr p.model →
      EvolinkProvider.generate http p = Except.error "model is required")
  ∧ (¬ jsFalsyStr p.mediaType → ¬ jsFalsyStr p.model →
      jsFalsyStr p.prompt ∧ p.options = none →
      EvolinkProvider.generate http p = Except.error "prompt or options is required")
  ∧ (¬ jsFalsyStr p.mediaType → ¬ jsFalsyStr p.model →
      ¬ (jsFalsyStr p.prompt ∧ p.options = none) →
      p.mediaType ≠ some AIMediaType.VIDEO → p.mediaType ≠ some AIMediaType.IMAGE →
      EvolinkProvider.generate http p = Except.error "Unsupported media type")
  ∧ (∀ ep, ¬ jsFalsyStr p.mediaType → ¬ jsFalsyStr p.model →
      ¬ (jsFalsyStr p.prompt ∧ p.options = none) →
      ((p.mediaType = some AIMediaType.VIDEO ∧ ep = "/v1/videos/generations") ∨
       (p.mediaType = some AIMediaType.IMAGE ∧ ep = "/v1/images/generations")) →
        ((http ep).ok = false →
          EvolinkProvider.generate http p = Except.error
            ("Evolink request failed with status: " ++ toString (http ep).status
              ++ ", message: " ++ (http ep).errorText))
      ∧ ((http ep).ok = true →
          ((http ep).body = none ∨
            ∃ d, (http ep).body = some d ∧ jsFalsyStr d.id) →
          EvolinkProvider.generate http p
            = Except.error "Evolink generate failed: no id in response")
      ∧ ((http ep).ok = true → ∀ d tid, (http ep).body = some d →
          d.id = some tid → tid ≠ "" →
          EvolinkProvider.generate http p = Except.ok
            { endpoint := ep,
              taskStatus := EvolinkProvider.mapStatus (some (jsOrStr d.status "pending")),
              taskId := tid, taskInfoStatus := d.status }))
  ∧ ((∃ e, EvolinkProvider.generate http p = Except.error e) ↔
      (jsFalsyStr p.mediaType ∨ jsFalsyStr p.model ∨
       (jsFalsyStr p.prompt ∧ p.options = none) ∨
       (p.mediaType ≠ some AIMediaType.VIDEO ∧ p.mediaType ≠ some AIMediaType.IMAGE) ∨
       (∃ ep, ((p.mediaType = some AIMediaType.VIDEO ∧ ep = "/v1/videos/generations") ∨
               (p.mediaType = some AIMediaType.IMAGE ∧ ep = "/v1/images/generations")) ∧
          ((http ep).ok = false ∨
           (http ep).body = none ∨
           (∃ d, (http ep).body = some d ∧ jsFalsyStr d.id))))) := by
  have hreq : ∀ ep,
      ((http ep).ok = false →
        EvolinkProvider.generateRequest http ep = Except.error
          ("Evolink request failed with status: " ++ toString (http ep).status
            ++ ", message: " ++ (http ep).errorText))
    ∧ ((http ep).ok = true →
        ((http ep).body = none ∨ ∃ d, (http ep).body = some d ∧ jsFalsyStr d.id) →
        EvolinkProvider.generateRequest http ep
          = Except.error "Evolink generate failed: no id in response")
    ∧ ((http ep).ok = true → ∀ d tid, (http ep).body = some d →
        d.id = some tid → tid ≠ "" →
        EvolinkProvider.generateRequest http ep = Except.ok
          { endpoint := ep,
            taskStatus := EvolinkProvider.mapStatus (some (jsOrStr d.status "pending")),
            taskId := tid, taskInfoStatus := d.status }) := by
    intro ep
    refine ⟨?_, ?_, ?_⟩
    · intro hok
      simp [EvolinkProvider.generateRequest, hok]
    · intro hok hbad
      rcases hbad with hb | ⟨d, hd, hid⟩
      · simp [EvolinkProvider.generateRequest, hok, hb]
      · rcases hid with hid | hid <;>
          simp [EvolinkProvider.generateRequest, hok, hd, hid]
    · intro hok d tid hd hid hne
      simp [EvolinkProvider.generateRequest, hok, hd, hid, hne]
  have hgenv : ¬ jsFalsyStr p.mediaType → ¬ jsFalsyStr p.model →
      ¬ (jsFalsyStr p.prompt ∧ p.options = none) →
      p.mediaType = some AIMediaType.VIDEO →
      EvolinkProvider.generate http p
        = EvolinkProvider.generateRequest http "/v1/videos/generations" := by
    intro hmt hmod hpo hv
    unfold EvolinkProvider.generate
    rw [if_neg hmt, if_neg hmod, if_neg hpo, if_pos hv]
  have hgeni : ¬ jsFalsyStr p.mediaType → ¬ jsFalsyStr p.model →
      ¬ (jsFalsyStr p.prompt ∧ p.options = none) →
      p.mediaType = some AIMediaType.IMAGE →
      EvolinkProvider.generate http p
        = EvolinkProvider.generateRequest http "/v1/images/generations" := by
    intro hmt hmod hpo hi
    have hv2 : ¬ p.mediaType = some AIMediaType.VIDEO := by
      rw [hi]; decide
    unfold EvolinkProvider.generate
    rw [if_neg hmt, if_neg hmod, if_neg hpo, if_neg hv2, if_pos hi]
  refine ⟨?_, ?_, ?_, ?_, ?_, ?_⟩
  · intro h
    unfold EvolinkProvider.generate
    rw [if_pos h]
  · intro hmt hmod
    unfold EvolinkProvider.generate
    rw [if_neg hmt, if_pos hmod]
  · intro hmt hmod hpo
    unfold EvolinkProvider.generate
    rw [if_neg hmt, if_neg hmod, if_pos hpo]
  · intro hmt hmod hpo hv hi
    unfold EvolinkProvider.generate
    rw [if_neg hmt, if_neg hmod, if_neg hpo, if_neg hv, if_neg hi]
  · intro ep hmt hmod hpo hep
    have hgen : EvolinkProvider.generate http p
        = EvolinkProvider.generateRequest http ep := by
      rcases hep with ⟨hv, rfl⟩ | ⟨hi, rfl⟩
      · exact hgenv hmt hmod hpo hv
      · exact hgeni hmt hmod hpo hi
    rw [hgen]
    exact hreq ep
  · by_cases hmt : jsFalsyStr p.mediaType
    · refine iff_of_true ⟨"mediaType is required", ?_⟩ (Or.inl hmt)
      unfold EvolinkProvider.generate
      rw [if_pos hmt]
    · by_cases hmod : jsFalsyStr p.model
      · refine iff_of_true ⟨"model is required", ?_⟩ (Or.inr (Or.inl hmod))
        unfold EvolinkProvider.generate
        rw [if_neg hmt, if_pos hmod]
      · by_cases hpo : jsFalsyStr p.prompt ∧ p.options = none
        · refine iff_of_true ⟨"prompt or options is required", ?_⟩
            (Or.inr (Or.inr (Or.inl hpo)))
          unfold EvolinkProvider.generate
          rw [if_neg hmt, if_neg hmod, if_pos hpo]
        · have hmain : ∀ ep,
              ((p.mediaType = some AIMediaType.VIDEO ∧ ep = "/v1/videos/generations") ∨
               (p.mediaType = some AIMediaType.IMAGE ∧ ep = "/v1/images/generations")) →
              ((∃ e, EvolinkProvider.generate http p = Except.error e) ↔
               ((http ep).ok = false ∨ (http ep).body = none ∨
                (∃ d, (http ep).body = some d ∧ jsFalsyStr d.id))) := by
            intro ep hep
            have hgen : EvolinkProvider.generate http p
                = EvolinkProvider.generateRequest http ep := by
              rcases hep with ⟨hv, rfl⟩ | ⟨hi, rfl⟩
              · exact hgenv hmt hmod hpo hv
              · exact hgeni hmt hmod hpo hi
            rw [hgen]
            cases hok : (http ep).ok with
            | false =>
              exact iff_of_true ⟨_, ((hreq ep).1 hok)⟩ (Or.inl rfl)
            | true =>
              cases hbody : (http ep).body with
              | none =>
                exact iff_of_true ⟨_, (hreq ep).2.1 hok (Or.inl hbody)⟩
                  (Or.inr (Or.inl rfl))
              | some d =>
                by_cases hid : jsFalsyStr d.id
                · exact iff_of_true ⟨_, (hreq ep).2.1 hok (Or.inr ⟨d, hbody, hid⟩)⟩
                    (Or.inr (Or.inr ⟨d, rfl, hid⟩))
                · have htid : ∃ tid, d.id = some tid ∧ tid ≠ "" := by
                    cases hdid : d.id with
                    | none => exact absurd (Or.inl hdid) hid
                    | some tid =>
                      refine ⟨tid, rfl, ?_⟩
                      intro hemp
                      exact hid (Or.inr (by rw [hdid, hemp]))
                  obtain ⟨tid, hdid, hne⟩ := htid
                  have hq := (hreq ep).2.2 hok d tid hbody hdid hne
                  refine iff_of_false ?_ ?_
                  · rintro ⟨e, he⟩
                    rw [hq] at he
                    exact Except.noConfusion he
                  · rintro (h | h | ⟨d2, hd2, hid2⟩)
                    · exact Bool.noConfusion h
                    · exact Option.noConfusion h
                    · injection hd2 with hdd
                      exact hid (by rw [hdd]; exact hid2)
          by_cases hv : p.mediaType = some AIMediaType.VIDEO
          · rw [hmain "/v1/videos/generations" (Or.inl ⟨hv, rfl⟩)]
            constructor
            · intro h
              exact Or.inr (Or.inr (Or.inr (Or.inr
                ⟨"/v1/videos/generations", Or.inl ⟨hv, rfl⟩, h⟩)))
            · rintro (h | h | h | ⟨h4a, h4b⟩ | ⟨ep, hpair, hbad⟩)
              · exact absurd h hmt
              · exact absurd h hmod
              · exact absurd h hpo
              · exact absurd hv h4a
              · rcases hpair with ⟨_, rfl⟩ | ⟨hi, rfl⟩
                · exact hbad
                · rw [hv] at hi
                  exact absurd hi (by decide)
          · by_cases hi : p.mediaType = some AIMediaType.IMAGE
            · rw [hmain "/v1/images/generations" (Or.inr ⟨hi, rfl⟩)]
              constructor
              · intro h
                exact Or.inr (Or.inr (Or.inr (Or.inr
                  ⟨"/v1/images/generations", Or.inr ⟨hi, rfl⟩, h⟩)))
              · rintro (h | h | h | ⟨h4a, h4b⟩ | ⟨ep, hpair, hbad⟩)
                · exact absurd h hmt
                · exact absurd h hmod
                · exact absurd h hpo
                · exact absurd hi h4b
                · rcases hpair with ⟨hv2, rfl⟩ | ⟨_, rfl⟩
                  · exact absurd hv2 hv
                  · exact hbad
            · refine iff_of_true ⟨"Unsupported media type", ?_⟩
                (Or.inr (Or.inr (Or.inr (Or.inl ⟨hv, hi⟩))))
              unfold EvolinkProvider.generate
              rw [if_neg hmt, if_neg hmod, if_neg hpo, if_neg hv, if_neg hi]

/-- A concrete HTTP oracle answering the generation POST with an ok response
carrying a task id and no status. -/
def c5Http : String → EvolinkProvider.GenHttpResp := fun _ =>
  { ok := true, status := 200, errorText := "",
    body := some { id := some "task-1", status := none } }

/-- Concrete image generation params for the generate witness. -/
def c5Params : EvolinkProvider.AIGenerateParams :=
  { mediaType := some AIMediaType.IMAGE, model := some "gemini-2.5-flash-image",
    prompt := some "a cat", options := none, callbackUrl := none }

/-- Witness for C5: the contract applied at a concrete successful image
generation (missing response status mapped to PENDING) and at params with a
missing media type. -/
theorem evolink_generate_contract_witness :
    EvolinkProvider.generate c5Http c5Params = Except.ok
      { endpoint := "/v1/images/generations", taskStatus := AITaskStatus.PENDING,
        taskId := "task-1", taskInfoStatus := none }
  ∧ EvolinkProvider.generate c5Http
      { mediaType := none, model := some "m", prompt := some "x",
        options := none, callbackUrl := none }
      = Except.error "mediaType is required" := by
  constructor
  · have h := ((evolink_generate_contract c5Http c5Params).2.2.2.2.1
      "/v1/images/generations" (by decide) (by decide) (by decide)
      (Or.inr ⟨rfl, rfl⟩)).2.2 rfl
      { id := some "task-1", status := none } "task-1" rfl rfl (by decide)
    rw [h]
    congr 1
  · exact (evolink_generate_contract c5Http
      { mediaType := none, model := some "m", prompt := some "x",
        options := none, callbackUrl := none }).1 (Or.inl rfl)

/- ===== The admin edit-credits form handler ===== -/

/-- One database effect of the edit-credits submit handler, in call order:
either an updateUser call writing the unlimited flag, or a setUserCredits
call writing the balance with expiry, scene and note. -/
inductive CreditEffect where
  | updateUser (userId : String) (unlimitedCredits : Bool)
  | setUserCredits (userId : String) (targetCredits : Int)
      (expiresAt : Option String) (scene : String) (note : Option String)
deriving DecidableEq, Repr

/-- The form data read by the edit-credits submit handler (FormData get
returns null for an absent field, modeled by none). -/
structure EditCreditsFormData where
  unlimitedCredits : Option String
  targetCredits : Option String
  expiresAt : Option String
  note : Option String
deriving DecidableEq, Repr

/-- The submit handler of the admin edit-credits form
(admin/users/[id]/edit-credits/page.tsx): when the unlimitedCredits field is
the string true or on, only the unlimited flag is set; otherwise the flag is
cleared and the balance is set to the parseInt of targetCredits with 0
replacing NaN, under scene admin_adjust, with the expiry date (null for an
empty or absent string) and the note. The Date value is modeled by the date
string it is built from. -/
def editCreditsSubmitHandler (userId : String) (d : EditCreditsFormData) :
    List CreditEffect :=
  let unlimitedCredits :=
    d.unlimitedCredits = some "true" ∨ d.unlimitedCredits = some "on"
  let targetCredits := (d.targetCredits.bind jsParseInt).getD 0
  let expiresAt : Option String :=
    match d.expiresAt with
    | some s => if s = "" then none else some s
    | none => none
  if unlimitedCredits then
    [CreditEffect.updateUser userId true]
  else
    [CreditEffect.updateUser userId false,
     CreditEffect.setUserCredits userId targetCredits expiresAt
       "admin_adjust" d.note]

/- ===== Theorem for claim C7 ===== -/

/-- C7: when the unlimitedCredits field is the string true or on, the handler
only sets the unlimited flag and issues no balance write at all; otherwise it
clears the flag and sets the balance to the integer parsed from
targetCredits, 0 when parsing yields no number, with the given expiry and
note under scene admin_adjust. -/
theorem edit_credits_submit_semantics (userId : String)
    (d : EditCreditsFormData) :
    ((d.unlimitedCredits = some "true" ∨ d.unlimitedCredits = some "on") →
      editCreditsSubmitHandler userId d = [CreditEffect.updateUser userId true]
      ∧ ∀ uid tc ea sc nt,
          CreditEffect.setUserCredits uid tc ea sc nt
            ∉ editCreditsSubmitHandler userId d)
  ∧ (¬ (d.unlimitedCredits = some "true" ∨ d.unlimitedCredits = some "on") →
      editCreditsSubmitHandler userId d =
        [CreditEffect.updateUser userId false,
         CreditEffect.setUserCredits userId
           ((d.targetCredits.bind jsParseInt).getD 0)
           (match d.expiresAt with
            | some s => if s = "" then none else some s
            | none => none)
           "admin_adjust" d.note])
  ∧ (¬ (d.unlimitedCredits = some "true" ∨ d.unlimitedCredits = some "on") →
      d.targetCredits.bind jsParseInt = none →
      CreditEffect.setUserCredits userId 0
          (match d.expiresAt with
           | some s => if s = "" then none else some s
           | none => none)
          "admin_adjust" d.note
        ∈ editCreditsSubmitHandler userId d) := by
  refine ⟨?_, ?_, ?_⟩
  · intro h
    refine ⟨by simp [editCreditsSubmitHandler, h], ?_⟩
    intro uid tc ea sc nt
    simp [editCreditsSubmitHandler, h]
  · intro h
    simp [editCreditsSubmitHandler, h]
  · intro h hparse
    simp [editCreditsSubmitHandler, h, hparse]

/-- Witness for C7: the handler theorem applied to a concrete checked form,
a concrete numeric form, and a concrete form whose targetCredits does not
parse. -/
theorem edit_credits_submit_semantics_witness :
    editCreditsSubmitHandler "u1"
      { unlimitedCredits := some "on", targetCredits := some "50",
        expiresAt := none, note := none }
      = [CreditEffect.updateUser "u1" true]
  ∧ editCreditsSubmitHandler "u1"
      { unlimitedCredits := none, targetCredits := some "50",
        expiresAt := some "2026-01-01", note := some "gift" }
      = [CreditEffect.updateUser "u1" false,
         CreditEffect.setUserCredits "u1" 50 (some "2026-01-01")
           "admin_adjust" (some "gift")]
  ∧ CreditEffect.setUserCredits "u1" 0 none "admin_adjust" none
      ∈ editCreditsSubmitHandler "u1"
        { unlimitedCredits := none, targetCredits := some "abc",
          expiresAt := none, note := none } := by
  refine ⟨?_, ?_, ?_⟩
  · exact ((edit_credits_submit_semantics "u1"
      { unlimitedCredits := some "on", targetCredits := some "50",
        expiresAt := none, note := none }).1 (Or.inr rfl)).1
  · have h := (edit_credits_submit_semantics "u1"
      { unlimitedCredits := none, targetCredits := some "50",
        expiresAt := some "2026-01-01", note := some "gift" }).2.1 (by decide)
    rw [h]
    congr 1
  · exact (edit_credits_submit_semantics "u1"
      { unlimitedCredits := none, targetCredits := some "abc",
        expiresAt := none, note := none }).2.2 (by decide) (by decide)

/- ===== The file-upload endpoint ===== -/

/-- The MIME types accepted as images by the upload endpoint. -/
def ALLOWED_IMAGE_TYPES : List String :=
  ["image/jpeg", "image/png", "image/gif", "image/webp"]

/-- The file extensions read as text by the upload endpoint. -/
def ALLOWED_TEXT_EXTENSIONS : List String :=
  [".txt", ".md", ".json", ".csv", ".xml", ".html", ".css", ".js", ".ts",
   ".py", ".java", ".c", ".cpp", ".h", ".hpp", ".sh", ".yaml", ".yml",
   ".toml", ".ini", ".cfg", ".log"]

/-- One submitted file: name, MIME type and content bytes (the byte buffer is
modeled by a string; the utf-8 decoding of a buffer is the identity on it and
the base64 encoding is an injected oracle). -/
structure UploadFileM where
  name : String
  type : String
  content : String
deriving DecidableEq, Repr

/-- The extension of a filename as computed by the endpoint: the last element
of the dot-split of the name (the substring after the last dot, or the whole
name when it has no dot), lowercased, with a leading dot prepended. -/
def getFileExtension (filename : String) : String :=
  "." ++ jsToLower
    (String.mk ((filename.data.reverse.takeWhile (fun c => c ≠ '.')).reverse))

/-- Text-file check by extension. -/
def isTextFile (f : UploadFileM) : Bool :=
  ALLOWED_TEXT_EXTENSIONS.contains (getFileExtension f.name)

/-- Image-file check by MIME type. -/
def isImageFile (f : UploadFileM) : Bool :=
  ALLOWED_IMAGE_TYPES.contains f.type

/-- Pdf-file check by MIME type or filename ending. -/
def isPdfFile (f : UploadFileM) : Bool :=
  f.type == "application/pdf" || jsEndsWith (jsToLower f.name) ".pdf"

/-- Word-file check by extension or MIME type. -/
def isWordFile (f : UploadFileM) : Bool :=
  getFileExtension f.name == ".docx" || getFileExtension f.name == ".doc" ||
  f.type == "application/vnd.openxmlformats-officedocument.wordprocessingml.document" ||
  f.type == "application/msword"

/-- Excel-file check by extension or MIME type. -/
def isExcelFile (f : UploadFileM) : Bool :=
  getFileExtension f.name == ".xlsx" || getFileExtension f.name == ".xls" ||
  f.type == "application/vnd.openxmlformats-officedocument.spreadsheetml.sheet" ||
  f.type == "application/vnd.ms-excel"

/-- One entry of the results array returned by the upload endpoint. -/
structure UploadResult where
  filename : String
  type : String
  fileType : String
  url : Option String
  key : Option String
  text : Option String
  base64 : Option String
  mimeType : Option String
deriving DecidableEq, Repr

/-- The per-file body of the upload loop: images go to storage (a failed or
throwing upload falls back to base64), text files carry their content, pdf
files their base64, word and excel files an advisory message, anything else
is tried as text. The storage service is an oracle returning the url and key
on success and none on failure or exception. -/
def processUploadFile (storage : UploadFileM → Option (String × String))
    (b64 : String → String) (f : UploadFileM) : UploadResult :=
  let base : UploadResult :=
    { filename := f.name,
      type := if f.type = "" then "application/octet-stream" else f.type,
      fileType := "unknown", url := none, key := none, text := none,
      base64 := none, mimeType := none }
  if isImageFile f then
    match storage f with
    | some (url, key) =>
      { base with fileType := "image", url := some url, key := some key }
    | none =>
      { base with fileType := "image", base64 := some (b64 f.content),
                  mimeType := some f.type }
  else if isTextFile f then
    { base with fileType := "text", text := some f.content }
  else if isPdfFile f then
    { base with fileType := "pdf", base64 := some (b64 f.content),
                mimeType := some "application/pdf" }
  else if isWordFile f then
    { base with fileType := "word",
                text := some ("[Word 文件: " ++ f.name ++
                  "]\n\n注意：Word 文档解析需要额外配置。建议将文档导出为 PDF 或纯文本格式后上传。") }
  else if isExcelFile f then
    { base with fileType := "excel",
                text := some ("[Excel 文件: " ++ f.name ++
                  "]\n\n注意：Excel 文档解析需要额外配置。建议将表格导出为 CSV 格式后上传。") }
  else
    { base with fileType := "unknown", text := some f.content }

/-- The upload POST handler: an empty file list answers an error response,
otherwise the files are processed one at a time in submission order, each
result being appended to the results array. -/
def uploadFilePOST (storage : UploadFileM → Option (String × String))
    (b64 : String → String) (files : List UploadFileM) :
    Except String (List UploadResult) :=
  if files.isEmpty then Except.error "No files provided"
  else Except.ok
    (files.foldl (fun acc f => acc ++ [processUploadFile storage b64 f]) [])

theorem processUploadFile_filename (storage : UploadFileM → Option (String × String))
    (b64 : String → String) (f : UploadFileM) :
    (processUploadFile storage b64 f).filename = f.name := by
  simp only [processUploadFile]
  split
  · split <;> rfl
  · split
    · rfl
    · split
      · rfl
      · split
        · rfl
        · split <;> rfl

theorem foldl_append_singleton_eq_map {α β : Type} (g : α → β) (l : List α) :
    ∀ acc : List β, l.foldl (fun a x => a ++ [g x]) acc = acc ++ l.map g := by
  induction l with
  | nil => intro acc; simp
  | cons x rest ih => intro acc; simp [ih]

theorem processUploadFile_fileType (storage : UploadFileM → Option (String × String))
    (b64 : String → String) (f : UploadFileM) :
    (processUploadFile storage b64 f).fileType
      ∈ ["image", "text", "pdf", "word", "excel", "unknown"] := by
  simp only [processUploadFile]
  split
  · split <;> simp
  · split
    · simp
    · split
      · simp
      · split
        · simp
        · split <;> simp

/- ===== Theorem for claim C8 ===== -/

/-- C8: for every POST with a nonempty file list, the handler processes the
files sequentially in submission order and returns exactly one result per
submitted file, in the same order, each carrying that file name and a
fileType among image, text, pdf, word, excel and unknown. -/
theorem upload_results_one_per_file (storage : UploadFileM → Option (String × String))
    (b64 : String → String) (files : List UploadFileM) (h : files ≠ []) :
    ∃ rs, uploadFilePOST storage b64 files = Except.ok rs
      ∧ rs = files.map (processUploadFile storage b64)
      ∧ rs.length = files.length
      ∧ (∀ j : Nat, (rs[j]?).map UploadResult.filename = (files[j]?).map UploadFileM.name)
      ∧ (∀ (j : Nat) (d : UploadResult), rs[j]? = some d →
          d.fileType ∈ ["image", "text", "pdf", "word", "excel", "unknown"]) := by
  have hmap : uploadFilePOST storage b64 files
      = Except.ok (files.map (processUploadFile storage b64)) := by
    have hne : ¬ files.isEmpty := by
      cases files with
      | nil => exact absurd rfl h
      | cons a l => simp
    simp [uploadFilePOST, hne, foldl_append_singleton_eq_map]
  refine ⟨_, hmap, rfl, by simp, ?_, ?_⟩
  · intro j
    rw [List.getElem?_map]
    cases hj : files[j]? <;> simp [hj, processUploadFile_filename]
  · intro j d hd
    rw [List.getElem?_map] at hd
    cases hj : files[j]? with
    | none => rw [hj] at hd; exact Option.noConfusion hd
    | some f =>
      rw [hj] at hd
      injection hd with hdd
      rw [← hdd]
      exact processUploadFile_fileType storage b64 f

/-- Witness for C8: the upload theorem applied to a concrete two-file list
with a storage oracle that fails, checking the returned filenames. -/
theorem upload_results_one_per_file_witness :
    ∃ rs, uploadFilePOST (fun _ => none) (fun s => s)
        [{ name := "a.txt", type := "text/plain", content := "hello" },
         { name := "b.png", type := "image/png", content := "bytes" }]
      = Except.ok rs
      ∧ rs.length = 2
      ∧ (rs.map UploadResult.filename = ["a.txt", "b.png"]
          ∧ rs.map UploadResult.fileType = ["text", "image"]) := by
  obtain ⟨rs, hok, hmap, hlen, hnames, htypes⟩ :=
    upload_results_one_per_file (fun _ => none) (fun s => s)
      [{ name := "a.txt", type := "text/plain", content := "hello" },
       { name := "b.png", type := "image/png", content := "bytes" }]
      (by simp)
  refine ⟨rs, hok, by simp [hlen], ?_, ?_⟩
  · rw [hmap]
    decide
  · rw [hmap]
    decide

/- ===== The delete-chat endpoint ===== -/

/-- Modelled from the spec: the Chat status enum. The spec data model gives
Chat a status column and the delete endpoint writes ChatStatus.DELETED; one
non-deleted status stands for every other value. -/
inductive ChatStatus where
  | CREATED
  | DELETED
deriving DecidableEq, Repr

/-- One persisted Chat row (spec data model: id, userId, status; updatedAt is
the timestamp column written by the endpoint, modeled by a Nat). -/
structure Chat where
  id : String
  userId : String
  status : ChatStatus
  updatedAt : Nat
deriving DecidableEq, Repr

/-- The signed-in user as returned by getUserInfo (none when not signed in). -/
structure UserInfo where
  id : String
deriving DecidableEq, Repr

/-- Modelled from the spec: findChatById looks up the persisted Chat row with
the given id. -/
def findChatById (db : List Chat) (chatId : String) : Option Chat :=
  db.find? (fun c => c.id == chatId)

/-- Modelled from the spec: updateChat writes the given columns of the row
with the given id, leaves every other row and column unchanged, and never
deletes a row. -/
def updateChat (db : List Chat) (chatId : String) (status : ChatStatus)
    (updatedAt : Nat) : List Chat :=
  db.map (fun c =>
    if c.id = chatId then { c with status := status, updatedAt := updatedAt }
    else c)

/-- The response and resulting database of the delete-chat handler. -/
structure DeleteChatResult where
  respStatus : Nat
  code : Nat
  message : String
  db : List Chat
deriving DecidableEq, Repr

/-- The delete-chat POST handler: a falsy chatId answers 400, a missing user
401, a missing chat 404, a requester other than the owner 403; otherwise the
chat is soft deleted by setting its status to DELETED with a fresh updatedAt,
and the row is never removed. -/
def deleteChatPOST (db : List Chat) (user : Option UserInfo)
    (chatId : Option String) (now : Nat) : DeleteChatResult :=
  match chatId with
  | none => ⟨400, 400, "chatId is required", db⟩
  | some cid =>
    if cid = "" then ⟨400, 400, "chatId is required", db⟩
    else
      match user with
      | none => ⟨401, 401, "no auth, please sign in", db⟩
      | some u =>
        match findChatById db cid with
        | none => ⟨404, 404, "chat not found", db⟩
        | some chat =>
          if chat.userId ≠ u.id then
            ⟨403, 403, "no permission to delete this chat", db⟩
          else
            ⟨200, 0, "chat deleted successfully",
             updateChat db cid ChatStatus.DELETED now⟩

/- ===== Theorem for claim C10 ===== -/

/-- C10: the delete-chat endpoint never removes a Chat row (the list of row
ids is preserved on every input); each error path answers its status with the
database untouched; and on success only the status and updatedAt columns of
the rows with the requested id are written, every other row and every other
column being unchanged. -/
theorem delete_chat_soft_delete_semantics (db : List Chat)
    (user : Option UserInfo) (chatId : Option String) (now : Nat) :
    ((deleteChatPOST db user chatId now).db.map Chat.id = db.map Chat.id)
  ∧ (jsFalsyStr chatId →
      deleteChatPOST db user chatId now = ⟨400, 400, "chatId is required", db⟩)
  ∧ (∀ cid, chatId = some cid → cid ≠ "" → user = none →
      deleteChatPOST db user chatId now
        = ⟨401, 401, "no auth, please sign in", db⟩)
  ∧ (∀ cid u, chatId = some cid → cid ≠ "" → user = some u →
      findChatById db cid = none →
      deleteChatPOST db user chatId now = ⟨404, 404, "chat not found", db⟩)
  ∧ (∀ cid u chat, chatId = some cid → cid ≠ "" → user = some u →
      findChatById db cid = some chat → chat.userId ≠ u.id →
      deleteChatPOST db user chatId now
        = ⟨403, 403, "no permission to delete this chat", db⟩)
  ∧ (∀ cid u chat, chatId = some cid → cid ≠ "" → user = some u →
      findChatById db cid = some chat → chat.userId = u.id →
      deleteChatPOST db user chatId now
        = ⟨200, 0, "chat deleted successfully",
           db.map (fun c => if c.id = cid
             then { c with status := ChatStatus.DELETED, updatedAt := now }
             else c)⟩) := by
  refine ⟨?_, ?_, ?_, ?_, ?_, ?_⟩
  · unfold deleteChatPOST
    cases chatId with
    | none => rfl
    | some cid =>
      by_cases hcid : cid = ""
      · simp [hcid]
      · cases user with
        | none => simp [hcid]
        | some u =>
          cases hfind : findChatById db cid with
          | none => simp [hcid, hfind]
          | some chat =>
            by_cases hperm : chat.userId ≠ u.id
            · simp [hcid, hfind, hperm]
            · simp only [hcid, hfind, hperm]
              simp [updateChat, List.map_map]
              intro c hc
              by_cases hid : c.id = cid <;> simp [hid]
  · intro h
    rcases h with h | h <;> simp [deleteChatPOST, h]
  · intro cid hcid hne hu
    simp [deleteChatPOST, hcid, hne, hu]
  · intro cid u hcid hne hu hfind
    simp [deleteChatPOST, hcid, hne, hu, hfind]
  · intro cid u chat hcid hne hu hfind hperm
    simp [deleteChatPOST, hcid, hne, hu, hfind, hperm]
  · intro cid u chat hcid hne hu hfind hperm
    simp [deleteChatPOST, hcid, hne, hu, hfind, hperm, updateChat]

/-- A concrete chat row for the delete-chat witness. -/
def c10Chat : Chat :=
  { id := "ch1", userId := "u1", status := ChatStatus.CREATED, updatedAt := 0 }

/-- A concrete one-row chat database for the delete-chat witness. -/
def c10Db : List Chat := [c10Chat]

/-- Witness for C10: the theorem applied on a concrete one-row database, for
the success path and the permission error path. -/
theorem delete_chat_soft_delete_semantics_witness :
    deleteChatPOST c10Db (some { id := "u1" }) (some "ch1") 5
      = ⟨200, 0, "chat deleted successfully",
         [{ c10Chat with status := ChatStatus.DELETED, updatedAt := 5 }]⟩
  ∧ deleteChatPOST c10Db (some { id := "u2" }) (some "ch1") 5
      = ⟨403, 403, "no permission to delete this chat", c10Db⟩ := by
  constructor
  · have h := (delete_chat_soft_delete_semantics c10Db
      (some { id := "u1" }) (some "ch1") 5).2.2.2.2.2 "ch1"
      ({ id := "u1" } : UserInfo) c10Chat
      rfl (by decide) rfl (by decide) (by decide)
    rw [h]
    congr 1
  · exact (delete_chat_soft_delete_semantics c10Db
      (some { id := "u2" }) (some "ch1") 5).2.2.2.2.1 "ch1"
      ({ id := "u2" } : UserInfo) c10Chat
      rfl (by decide) rfl (by decide) (by decide)

/- ===== Claim C3: counterexample and amended statement ===== -/

/-- Counterexample for C3: the Evolink webhook handler answers a 400 error
response, not a generic 500, on a payload without a task id; and the upload
handler substitutes a base64 fallback result when the storage upload of an
image fails. -/
theorem generic_500_only_counterexample :
    (evolinkWebhookPOST sampleCfg sampleOracle 0 []
        { id := none, status := none, results := none, type := none,
          error := none } "").respStatus = 400
  ∧ (400 : Nat) ≠ 500
  ∧ (processUploadFile (fun _ => none) (fun s => s)
        { name := "b.png", type := "image/png", content := "bytes" }).base64
      = some "bytes"
  ∧ (processUploadFile (fun _ => none) (fun s => s)
        { name := "b.png", type := "image/png", content := "bytes" }).fileType
      = "image" := by
  refine ⟨rfl, by decide, by decide, by decide⟩

/-- C3 amended: each handler answers a single response with no retry; the
delete-chat handler statuses lie in 200, 400, 401, 403, 404 and the Evolink
webhook statuses in 200, 400, 404 (the generic 500 is reserved for the
top-level catch of unexpected exceptions, outside this model); and the upload
handler substitutes a base64 fallback entry, still typed image, when the
image storage upload fails. -/
theorem error_responses_amended (db : List Chat) (user : Option UserInfo)
    (chatId : Option String) (now : Nat) (cfg : Configs)
    (oracle : List AIFile → Option (List (Option AIFile))) (wnow : Nat)
    (wdb : List AITask) (p : EvolinkTaskPayload) (raw : String)
    (storage : UploadFileM → Option (String × String)) (b64 : String → String)
    (f : UploadFileM) :
    ((deleteChatPOST db user chatId now).respStatus
        ∈ ([200, 400, 401, 403, 404] : List Nat))
  ∧ ((evolinkWebhookPOST cfg oracle wnow wdb p raw).respStatus
        ∈ ([200, 400, 404] : List Nat))
  ∧ (isImageFile f = true → storage f = none →
      (processUploadFile storage b64 f).base64 = some (b64 f.content)
      ∧ (processUploadFile storage b64 f).fileType = "image") := by
  refine ⟨?_, ?_, ?_⟩
  · unfold deleteChatPOST
    cases chatId with
    | none => simp
    | some cid =>
      by_cases hcid : cid = ""
      · simp [hcid]
      · cases user with
        | none => simp [hcid]
        | some u =>
          cases hfind : findChatById db cid with
          | none => simp [hcid, hfind]
          | some chat =>
            by_cases hperm : chat.userId ≠ u.id
            · simp [hcid, hfind, hperm]
            · simp [hcid, hfind, hperm]
  · unfold evolinkWebhookPOST
    cases p.id with
    | none => simp
    | some tid =>
      by_cases htid : tid = ""
      · simp [htid]
      · cases hfind : findAITaskByProviderTaskId wdb tid "evolink" with
        | none => simp [htid, hfind]
        | some task => simp [htid, hfind]
  · intro himg hstore
    constructor <;> simp [processUploadFile, himg, hstore]

/-- Witness for the amended C3 statement: the theorem applied at concrete
inputs for each of its three parts. -/
theorem error_responses_amended_witness :
    ((deleteChatPOST [] none none 0).respStatus
        ∈ ([200, 400, 401, 403, 404] : List Nat))
  ∧ ((evolinkWebhookPOST sampleCfg sampleOracle 0 [] samplePayload "").respStatus
        ∈ ([200, 400, 404] : List Nat))
  ∧ ((processUploadFile (fun _ => none) (fun s => s)
        { name := "b.png", type := "image/png", content := "bytes" }).base64
      = some "bytes") :=
  ⟨(error_responses_amended [] none none 0 sampleCfg sampleOracle 0 []
      samplePayload "" (fun _ => none) (fun s => s)
      { name := "b.png", type := "image/png", content := "bytes" }).1,
   (error_responses_amended [] none none 0 sampleCfg sampleOracle 0 []
      samplePayload "" (fun _ => none) (fun s => s)
      { name := "b.png", type := "image/png", content := "bytes" }).2.1,
   ((error_responses_amended [] none none 0 sampleCfg sampleOracle 0 []
      samplePayload "" (fun _ => none) (fun s => s)
      { name := "b.png", type := "image/png", content := "bytes" }).2.2
      (by decide) rfl).1⟩
